import Mathlib

/-!
Verification of the broadcast/fanout engine of this repository.

The definitions below are a shallow embedding of `src/broadcast.py`
(together with the constants of `src/config.py`, the store calls of
`src/database.py`, and the trigger handler `_start_broadcast` of
`src/handlers/admin_panel.py`).  Asynchronous transport calls are
modelled by explicit outcome values (`SendRes`), exceptions by an error
type (`TgError`), and the side effects of a call (sleeps, transport
attempts, writes of the blocked flag) by an event trace (`List Ev`).
-/

/- config.py line 47 -/
def BROADCAST_BATCH_SIZE : Nat := 25

/- config.py line 48 -/
def BROADCAST_MESSAGES_PER_SECOND : Nat := 25

/- broadcast.py line 24 -/
def MAX_RETRY_AFTER_ATTEMPTS : Nat := 5

/-- Errors raised by the transport, as discriminated by broadcast.py:
`RetryAfter` (carries a server-mandated delay), `Forbidden`/`BadRequest`
(both carry a message and are handled identically everywhere in the file,
so they are merged into one constructor `api`), and any other exception. -/
inductive TgError where
  | retryAfter (delay : Nat)
  | api (msg : String)
  | other
deriving DecidableEq

/-- Outcome of one raw transport send call: succeeded, or raised an error. -/
inductive SendRes where
  | sent
  | err (e : TgError)
deriving DecidableEq

/-- Result of `_send_via_copy` / `_send_via_payload`: the function returned
a boolean, or re-raised an error to its caller. -/
inductive CallRes where
  | ok (b : Bool)
  | raised (e : TgError)
deriving DecidableEq

/-- Character-list test: does the second list start with the first list. -/
def startsWithChars : List Char → List Char → Bool
  | [], _ => true
  | _ :: _, [] => false
  | c :: cs, h :: hs => (c == h) && startsWithChars cs hs

/-- Character-list substring test, mirroring the Python `in` operator. -/
def containsSub (needle : List Char) : List Char → Bool
  | [] => startsWithChars needle []
  | h :: hs => startsWithChars needle (h :: hs) || containsSub needle hs

/-- The Python `str.lower()` applied to an error message. -/
def lowerStr (s : String) : List Char := s.data.map Char.toLower

/-- The textual permanent-error classifier of broadcast.py (lines 68-69,
110-111, 138-139, 181-182): lower-case the message and test the four
substrings "blocked", "user is deactivated", "chat not found",
"user not found". -/
def classifyPermanent (msg : String) : Bool :=
  let e := lowerStr msg
  containsSub "blocked".data e || containsSub "user is deactivated".data e ||
    containsSub "chat not found".data e || containsSub "user not found".data e

/-- `_send_via_copy` (broadcast.py lines 51-73), as a function of the
transport outcome of its one `copy_message` call: `RetryAfter` is
re-raised, a permanent-classified `Forbidden`/`BadRequest` returns
`False`, any other error is re-raised. -/
def sendViaCopy (r : SendRes) : CallRes :=
  match r with
  | .sent => .ok true
  | .err (.retryAfter d) => .raised (.retryAfter d)
  | .err (.api msg) => if classifyPermanent msg then .ok false else .raised (.api msg)
  | .err .other => .raised .other

/-- `_send_via_payload` (broadcast.py lines 76-115): whichever kind-specific
send runs, the error handling is identical to `_send_via_copy`. -/
def sendViaPayload (r : SendRes) : CallRes :=
  match r with
  | .sent => .ok true
  | .err (.retryAfter d) => .raised (.retryAfter d)
  | .err (.api msg) => if classifyPermanent msg then .ok false else .raised (.api msg)
  | .err .other => .raised .other

/-- Observable side effects of the engine: a transport attempt on the
reference-copy path, a transport attempt on the payload path, an
`asyncio.sleep(d)`, and a `db.set_user_blocked(uid, b)` store write. -/
inductive Ev where
  | copyAttempt
  | payloadAttempt
  | sleep (d : Nat)
  | setBlocked (uid : Nat) (b : Bool)
deriving DecidableEq

/-- `BroadcastState` (broadcast.py lines 41-48) minus the lock object:
the lock serialises the increments, which the sequential model renders
as atomic updates. -/
structure BState where
  success : Nat := 0
  failed : Nat := 0
  batchCount : Nat := 0
  lastProgressAt : Nat := 0
deriving DecidableEq

/-- The zero state constructed at the start of a run. -/
def bs0 : BState := {}

/-- Result of one iteration of the retry loop of `_send_one_with_retry`:
the function returned, or a `RetryAfter` was caught and the loop
continues after sleeping `d`. -/
inductive StepRes where
  | done
  | retry (d : Nat)
deriving DecidableEq

def prependEv (e : Ev) (r : BState × List Ev × StepRes) : BState × List Ev × StepRes :=
  (r.1, e :: r.2.1, r.2.2)

/-- broadcast.py lines 161-170: the `if ok:` block shared by both paths. -/
def afterOk (uid : Nat) (b : Bool) (s : BState) : BState × List Ev × StepRes :=
  if b then ({ s with success := s.success + 1 }, [], .done)
  else ({ s with failed := s.failed + 1 }, [Ev.setBlocked uid true], .done)

/-- broadcast.py lines 172-197: the outer `except` clauses of the loop
body, reached by any error that escapes the inner handling. -/
def outerHandler (uid : Nat) (e : TgError) (s : BState) : BState × List Ev × StepRes :=
  match e with
  | .retryAfter d => (s, [Ev.sleep d], .retry d)
  | .api msg =>
      if classifyPermanent msg then
        ({ s with failed := s.failed + 1 }, [Ev.setBlocked uid true], .done)
      else
        ({ s with failed := s.failed + 1 }, [], .done)
  | .other => ({ s with failed := s.failed + 1 }, [], .done)

/-- One iteration of the `for attempt` loop body of `_send_one_with_retry`
(broadcast.py lines 130-197).  `useCopy` is `source_chat_id is not None and
source_message_id is not None`; `hasPayload` is `params.payload` truthiness;
`cres` / `pres` are the transport outcomes of the copy and payload calls of
this iteration (at most one each is consumed). -/
def sendOneBody (useCopy hasPayload : Bool) (cres pres : SendRes) (uid : Nat)
    (s : BState) : BState × List Ev × StepRes :=
  if useCopy then
    match sendViaCopy cres with
    | .ok b => prependEv .copyAttempt (afterOk uid b s)
    | .raised (.api msg) =>
        if classifyPermanent msg then
          ({ s with failed := s.failed + 1 }, [Ev.copyAttempt, Ev.setBlocked uid true], .done)
        else if hasPayload then
          match sendViaPayload pres with
          | .ok b => prependEv .copyAttempt (prependEv .payloadAttempt (afterOk uid b s))
          | .raised e2 => prependEv .copyAttempt (prependEv .payloadAttempt (outerHandler uid e2 s))
        else
          ({ s with failed := s.failed + 1 }, [Ev.copyAttempt], .done)
    | .raised e => prependEv .copyAttempt (outerHandler uid e s)
  else if hasPayload then
    match sendViaPayload pres with
    | .ok b => prependEv .payloadAttempt (afterOk uid b s)
    | .raised e => prependEv .payloadAttempt (outerHandler uid e s)
  else
    ({ s with failed := s.failed + 1 }, [], .done)

/-- The `for attempt in range(1, MAX_RETRY_AFTER_ATTEMPTS + 1)` loop of
`_send_one_with_retry`, with `fuel` iterations remaining and the current
attempt number `attempt`.  The behaviors `copyB`/`payB` give the transport
outcome of the copy/payload call made during a given attempt.  Falling out
of the loop counts the recipient failed (broadcast.py lines 199-201). -/
def sendOneFrom (useCopy hasPayload : Bool) (copyB payB : Nat → SendRes) (uid : Nat) :
    Nat → Nat → BState → BState × List Ev
  | _, 0, s => ({ s with failed := s.failed + 1 }, [])
  | attempt, fuel + 1, s =>
    match sendOneBody useCopy hasPayload (copyB attempt) (payB attempt) uid s with
    | (s1, evs, .done) => (s1, evs)
    | (s1, evs, .retry _) =>
        let r := sendOneFrom useCopy hasPayload copyB payB uid (attempt + 1) fuel s1
        (r.1, evs ++ r.2)

/-- `_send_one_with_retry` (broadcast.py lines 118-201). -/
def sendOneWithRetry (useCopy hasPayload : Bool) (copyB payB : Nat → SendRes)
    (uid : Nat) (s : BState) : BState × List Ev :=
  sendOneFrom useCopy hasPayload copyB payB uid 1 MAX_RETRY_AFTER_ATTEMPTS s

/-- One recipient of a run: its identifier and the transport behavior it
exhibits on each attempt of the copy and payload paths. -/
structure Recip where
  uid : Nat
  copyB : Nat → SendRes
  payB : Nat → SendRes

/-- The deliveries of a run, in queue order.  Workers consume each queued
recipient exactly once and each delivery mutates the shared state under the
lock; the interleaving of whole-recipient effects is modelled sequentially. -/
def processRecipients (useCopy hasPayload : Bool) (rs : List Recip) (s : BState) :
    BState × List Ev :=
  match rs with
  | [] => (s, [])
  | r :: rest =>
    let a := sendOneWithRetry useCopy hasPayload r.copyB r.payB r.uid s
    let b := processRecipients useCopy hasPayload rest a.1
    (b.1, a.2 ++ b.2)

/-- One pass of the `_worker` loop body (broadcast.py lines 213-229) on a
dequeued item: a stop sentinel (`None`) just acknowledges and exits; a
recipient is delivered with retry, then `batch_count` is incremented and the
returned flag says whether this worker sleeps 1 second before the next pull
(`n % BROADCAST_MESSAGES_PER_SECOND == 0`, lines 221-225). -/
def workerProcessItem (useCopy hasPayload : Bool) (item : Option Recip) (s : BState) :
    BState × Bool :=
  match item with
  | none => (s, false)
  | some r =>
    let a := sendOneWithRetry useCopy hasPayload r.copyB r.payB r.uid s
    let s2 := { a.1 with batchCount := a.1.batchCount + 1 }
    (s2, s2.batchCount % BROADCAST_MESSAGES_PER_SECOND == 0)

/-- Externally visible effects of `run_broadcast` (broadcast.py lines
259-348): how many worker tasks are launched, whether the progress reporter
task is launched, the persisted broadcast row
(`db.update_broadcast(broadcast_id, success, failed, status)`), whether a
final completion notification is attempted, whether the start was logged,
and the trace of delivery side effects. -/
structure RunEffects where
  workersLaunched : Nat
  reporterLaunched : Bool
  persisted : Option (Nat × Nat × String)
  finalNotify : Bool
  logged : Bool
  trace : List Ev

/-- `run_broadcast` (broadcast.py lines 259-348).  For `total == 0` it logs
and returns before constructing the queue, workers, reporter, DB update or
completion message (lines 274-277); otherwise `_run` drains the queue and
persists the final counters with status "completed". -/
def run_broadcast (useCopy hasPayload : Bool) (rs : List Recip) : RunEffects :=
  if rs.length = 0 then
    { workersLaunched := 0, reporterLaunched := false, persisted := none,
      finalNotify := false, logged := true, trace := [] }
  else
    let res := processRecipients useCopy hasPayload rs bs0
    { workersLaunched := min BROADCAST_BATCH_SIZE rs.length,
      reporterLaunched := true,
      persisted := some (res.1.success, res.1.failed, "completed"),
      finalNotify := true, logged := true, trace := res.2 }

/-- Effects of the `_start_broadcast` handler
(src/handlers/admin_panel.py lines 218-246). -/
structure HandlerEffects where
  replied : Bool
  runCreated : Bool
  broadcastStarted : Bool

/-- `_start_broadcast`: unsupported message type replies and stops; an empty
active-user list replies "No users to broadcast to." and stops before
`db.create_broadcast`; otherwise a run row is created and the broadcast is
started. -/
def startBroadcastHandler (hasPayload : Bool) (activeUsers : List Nat) : HandlerEffects :=
  if hasPayload = false then
    { replied := true, runCreated := false, broadcastStarted := false }
  else if activeUsers.length = 0 then
    { replied := true, runCreated := false, broadcastStarted := false }
  else
    { replied := true, runCreated := true, broadcastStarted := true }

/-- Worker-pool size of `_run` (broadcast.py lines 304-312). -/
def numWorkers (userIds : List Nat) : Nat := min BROADCAST_BATCH_SIZE userIds.length

/-- The queue as seeded by `_run` (broadcast.py lines 302-305): every
recipient in order, then one `None` stop sentinel per worker. -/
def initQueue (userIds : List Nat) : List (Option Nat) :=
  userIds.map some ++ List.replicate (numWorkers userIds) none

/-- State of the queue-drain protocol: the remaining queue contents and the
number of workers still running. -/
structure QState where
  q : List (Option Nat)
  active : Nat
deriving DecidableEq

/-- One dequeue by some still-active worker (`_worker`, lines 213-218): a
recipient entry is consumed and the worker keeps running; a `None` sentinel
is consumed and that worker returns.  Nothing is ever requeued. -/
inductive QStep : QState → QState → Prop
  | user (u : Nat) (rest : List (Option Nat)) (a : Nat) :
      QStep ⟨some u :: rest, a + 1⟩ ⟨rest, a + 1⟩
  | stop (rest : List (Option Nat)) (a : Nat) :
      QStep ⟨none :: rest, a + 1⟩ ⟨rest, a⟩

/-- States reachable during the run seeded from `userIds`. -/
inductive QReach (us : List Nat) : QState → Prop
  | init : QReach us ⟨initQueue us, numWorkers us⟩
  | step {s t : QState} : QReach us s → QStep s t → QReach us t

/-- A state from which no worker can take another step; `queue.join()`
returns exactly in the reachable terminal state (every entry consumed and
acknowledged via `task_done`). -/
def QTerminal (s : QState) : Prop := ∀ t, ¬ QStep s t

/-- Events of one `_progress_sender` loop iteration
(broadcast.py lines 241-256). -/
inductive RepEv where
  | lockAcquire
  | readSnapshot
  | notifySend
  | lockRelease
deriving DecidableEq

/-- One iteration of `_progress_sender` after its 2-second sleep
(broadcast.py lines 245-256), with the updated state and the ordered event
trace of the iteration.  As in the source, the whole body — including the
`bot.send_message` progress notification — executes inside
`async with state.lock:`. -/
def progressSenderIter (s : BState) (total threshold : Nat) : BState × List RepEv :=
  let current := s.success + s.failed
  if threshold ≤ current - s.lastProgressAt ∨ total ≤ current then
    ({ s with lastProgressAt := current },
     [RepEv.lockAcquire, RepEv.readSnapshot, RepEv.notifySend, RepEv.lockRelease])
  else
    (s, [RepEv.lockAcquire, RepEv.readSnapshot, RepEv.lockRelease])

def notifyUnderLockAux : Nat → List RepEv → Bool
  | _, [] => false
  | depth, RepEv.lockAcquire :: rest => notifyUnderLockAux (depth + 1) rest
  | depth, RepEv.lockRelease :: rest => notifyUnderLockAux (depth - 1) rest
  | depth, RepEv.notifySend :: rest => (depth != 0) || notifyUnderLockAux depth rest
  | depth, RepEv.readSnapshot :: rest => notifyUnderLockAux depth rest

/-- Whether a trace performs the external notification send while the shared
Progress lock is held. -/
def notifyUnderLock (evs : List RepEv) : Bool := notifyUnderLockAux 0 evs

/-!  Helper lemmas about the loop body. -/

/-- Per-iteration accounting: a returning iteration increments exactly one
of `success`/`failed` by one and leaves the other counters alone; a
`RetryAfter` iteration leaves the state unchanged. -/
def StepOk (s : BState) (r : BState × List Ev × StepRes) : Prop :=
  (r.2.2 = .done →
     r.1.batchCount = s.batchCount ∧ r.1.lastProgressAt = s.lastProgressAt ∧
       (r.1.success = s.success + 1 ∧ r.1.failed = s.failed ∨
        r.1.success = s.success ∧ r.1.failed = s.failed + 1)) ∧
  (∀ d, r.2.2 = .retry d → r.1 = s)

/-- All blocked-flag writes of an iteration target the processed recipient
and write `true`. -/
def BlockedOk (uid : Nat) (r : BState × List Ev × StepRes) : Prop :=
  ∀ u2 b, Ev.setBlocked u2 b ∈ r.2.1 → u2 = uid ∧ b = true

theorem afterOk_stepOk (uid : Nat) (b : Bool) (s : BState) :
    StepOk s (afterOk uid b s) := by
  cases b <;> simp [afterOk, StepOk]

theorem afterOk_blockedOk (uid : Nat) (b : Bool) (s : BState) :
    BlockedOk uid (afterOk uid b s) := by
  cases b <;> simp [afterOk, BlockedOk]

theorem outerHandler_stepOk (uid : Nat) (e : TgError) (s : BState) :
    StepOk s (outerHandler uid e s) := by
  rcases e with d | m | _
  · simp [outerHandler, StepOk]
  · simp only [outerHandler, StepOk]
    split_ifs <;> simp
  · simp [outerHandler, StepOk]

theorem outerHandler_blockedOk (uid : Nat) (e : TgError) (s : BState) :
    BlockedOk uid (outerHandler uid e s) := by
  rcases e with d | m | _
  · simp [outerHandler, BlockedOk]
  · simp only [outerHandler, BlockedOk]
    split_ifs <;> simp
  · simp [outerHandler, BlockedOk]

theorem prependEv_stepOk (e : Ev) (s : BState) (r : BState × List Ev × StepRes)
    (hr : StepOk s r) : StepOk s (prependEv e r) := hr

theorem prependEv_blockedOk (uid : Nat) (e : Ev) (r : BState × List Ev × StepRes)
    (he : ∀ u2 b, e ≠ Ev.setBlocked u2 b) (hr : BlockedOk uid r) :
    BlockedOk uid (prependEv e r) := by
  intro u2 b hmem
  rcases List.mem_cons.mp hmem with hmem | hmem
  · exact absurd hmem.symm (he u2 b)
  · exact hr u2 b hmem

theorem sendOneBody_stepOk (u h : Bool) (c p : SendRes) (uid : Nat) (s : BState) :
    StepOk s (sendOneBody u h c p uid s) := by
  cases u with
  | false =>
      cases h with
      | false => simp [sendOneBody, StepOk]
      | true =>
          rcases hp : sendViaPayload p with b | e
          · have := prependEv_stepOk .payloadAttempt s _ (afterOk_stepOk uid b s)
            simpa [sendOneBody, hp] using this
          · have := prependEv_stepOk .payloadAttempt s _ (outerHandler_stepOk uid e s)
            simpa [sendOneBody, hp] using this
  | true =>
      rcases hc : sendViaCopy c with b | e
      · have := prependEv_stepOk .copyAttempt s _ (afterOk_stepOk uid b s)
        simpa [sendOneBody, hc] using this
      · rcases e with d | m | _
        · have := prependEv_stepOk .copyAttempt s _
            (outerHandler_stepOk uid (.retryAfter d) s)
          simpa [sendOneBody, hc] using this
        · rcases hm : classifyPermanent m with _ | _
          · cases h with
            | false => simp [sendOneBody, hc, hm, StepOk]
            | true =>
                rcases hp : sendViaPayload p with b | e2
                · have := prependEv_stepOk .copyAttempt s _
                    (prependEv_stepOk .payloadAttempt s _ (afterOk_stepOk uid b s))
                  simpa [sendOneBody, hc, hm, hp] using this
                · have := prependEv_stepOk .copyAttempt s _
                    (prependEv_stepOk .payloadAttempt s _ (outerHandler_stepOk uid e2 s))
                  simpa [sendOneBody, hc, hm, hp] using this
          · simp [sendOneBody, hc, hm, StepOk]
        · have := prependEv_stepOk .copyAttempt s _ (outerHandler_stepOk uid .other s)
          simpa [sendOneBody, hc] using this

theorem sendOneBody_blockedOk (u h : Bool) (c p : SendRes) (uid : Nat) (s : BState) :
    BlockedOk uid (sendOneBody u h c p uid s) := by
  have hcopy : ∀ u2 b, Ev.copyAttempt ≠ Ev.setBlocked u2 b := by intro u2 b hx; cases hx
  have hpay : ∀ u2 b, Ev.payloadAttempt ≠ Ev.setBlocked u2 b := by intro u2 b hx; cases hx
  cases u with
  | false =>
      cases h with
      | false => simp [sendOneBody, BlockedOk]
      | true =>
          rcases hp : sendViaPayload p with b | e
          · have := prependEv_blockedOk uid .payloadAttempt _ hpay (afterOk_blockedOk uid b s)
            simpa [sendOneBody, hp] using this
          · have := prependEv_blockedOk uid .payloadAttempt _ hpay (outerHandler_blockedOk uid e s)
            simpa [sendOneBody, hp] using this
  | true =>
      rcases hc : sendViaCopy c with b | e
      · have := prependEv_blockedOk uid .copyAttempt _ hcopy (afterOk_blockedOk uid b s)
        simpa [sendOneBody, hc] using this
      · rcases e with d | m | _
        · have := prependEv_blockedOk uid .copyAttempt _ hcopy
            (outerHandler_blockedOk uid (.retryAfter d) s)
          simpa [sendOneBody, hc] using this
        · rcases hm : classifyPermanent m with _ | _
          · cases h with
            | false => simp [sendOneBody, hc, hm, BlockedOk]
            | true =>
                rcases hp : sendViaPayload p with b | e2
                · have := prependEv_blockedOk uid .copyAttempt _ hcopy
                    (prependEv_blockedOk uid .payloadAttempt _ hpay (afterOk_blockedOk uid b s))
                  simpa [sendOneBody, hc, hm, hp] using this
                · have := prependEv_blockedOk uid .copyAttempt _ hcopy
                    (prependEv_blockedOk uid .payloadAttempt _ hpay (outerHandler_blockedOk uid e2 s))
                  simpa [sendOneBody, hc, hm, hp] using this
          · simp [sendOneBody, hc, hm, BlockedOk]
        · have := prependEv_blockedOk uid .copyAttempt _ hcopy
            (outerHandler_blockedOk uid .other s)
          simpa [sendOneBody, hc] using this

/-- Whole-delivery accounting: `_send_one_with_retry` increments exactly one
of `success`/`failed` by exactly one and touches nothing else. -/
def OneDone (s t : BState) : Prop :=
  t.batchCount = s.batchCount ∧ t.lastProgressAt = s.lastProgressAt ∧
    (t.success = s.success + 1 ∧ t.failed = s.failed ∨
     t.success = s.success ∧ t.failed = s.failed + 1)

theorem sendOneFrom_oneDone (u h : Bool) (cb pb : Nat → SendRes) (uid : Nat) :
    ∀ (fuel attempt : Nat) (s : BState),
      OneDone s (sendOneFrom u h cb pb uid attempt fuel s).1 := by
  intro fuel
  induction fuel with
  | zero =>
      intro attempt s
      simp [sendOneFrom, OneDone]
  | succ n ih =>
      intro attempt s
      have hs := sendOneBody_stepOk u h (cb attempt) (pb attempt) uid s
      rcases hres : sendOneBody u h (cb attempt) (pb attempt) uid s with ⟨s1, evs, sr⟩
      rw [hres] at hs
      cases sr with
      | done =>
          have hd := hs.1 rfl
          simp only [sendOneFrom, hres]
          exact ⟨hd.1, hd.2.1, hd.2.2⟩
      | retry d =>
          have heq : s1 = s := hs.2 d rfl
          subst heq
          simp only [sendOneFrom, hres]
          exact ih (attempt + 1) s1

theorem sendOneWithRetry_oneDone (u h : Bool) (cb pb : Nat → SendRes) (uid : Nat)
    (s : BState) : OneDone s (sendOneWithRetry u h cb pb uid s).1 :=
  sendOneFrom_oneDone u h cb pb uid MAX_RETRY_AFTER_ATTEMPTS 1 s

/-- The whole delivery writes the blocked flag only for its own recipient
and only with value `true`. -/
theorem sendOneFrom_blockedOk (u h : Bool) (cb pb : Nat → SendRes) (uid : Nat) :
    ∀ (fuel attempt : Nat) (s : BState) (u2 : Nat) (b : Bool),
      Ev.setBlocked u2 b ∈ (sendOneFrom u h cb pb uid attempt fuel s).2 →
        u2 = uid ∧ b = true := by
  intro fuel
  induction fuel with
  | zero =>
      intro attempt s u2 b hmem
      simp [sendOneFrom] at hmem
  | succ n ih =>
      intro attempt s u2 b hmem
      have hb := sendOneBody_blockedOk u h (cb attempt) (pb attempt) uid s
      rcases hres : sendOneBody u h (cb attempt) (pb attempt) uid s with ⟨s1, evs, sr⟩
      rw [hres] at hb
      cases sr with
      | done =>
          simp only [sendOneFrom, hres] at hmem
          exact hb u2 b hmem
      | retry d =>
          simp only [sendOneFrom, hres, List.mem_append] at hmem
          rcases hmem with hmem | hmem
          · exact hb u2 b hmem
          · exact ih (attempt + 1) s1 u2 b hmem

/-- Run-level accounting: processing recipients adds their number to
`success + failed`. -/
theorem processRecipients_sum (u h : Bool) :
    ∀ (rs : List Recip) (s : BState),
      (processRecipients u h rs s).1.success + (processRecipients u h rs s).1.failed
        = s.success + s.failed + rs.length := by
  intro rs
  induction rs with
  | nil => intro s; simp [processRecipients]
  | cons r rest ih =>
      intro s
      have hone := sendOneWithRetry_oneDone u h r.copyB r.payB r.uid s
      simp only [processRecipients, List.length_cons]
      rw [ih]
      rcases hone.2.2 with ⟨hsu, hfa⟩ | ⟨hsu, hfa⟩ <;> rw [hsu, hfa] <;> omega

/-- Run-level: the blocked flag is only ever written `true`. -/
theorem processRecipients_blockedTrue (u h : Bool) :
    ∀ (rs : List Recip) (s : BState) (u2 : Nat) (b : Bool),
      Ev.setBlocked u2 b ∈ (processRecipients u h rs s).2 → b = true := by
  intro rs
  induction rs with
  | nil => intro s u2 b hmem; simp [processRecipients] at hmem
  | cons r rest ih =>
      intro s u2 b hmem
      simp only [processRecipients, List.mem_append] at hmem
      rcases hmem with hmem | hmem
      · exact (sendOneFrom_blockedOk u h r.copyB r.payB r.uid
          MAX_RETRY_AFTER_ATTEMPTS 1 s u2 b hmem).2
      · exact ih _ u2 b hmem

/-!  Queue-drain protocol lemmas. -/

/-- Shape invariant of reachable queue states: some prefix of the recipients
has been consumed, the queue holds the remaining recipients (in order)
followed by one sentinel per still-active worker, and no worker has exited
while recipients remain. -/
theorem qreach_inv {us : List Nat} {s : QState} (hr : QReach us s) :
    ∃ pre rem, us = pre ++ rem ∧
      s.q = rem.map some ++ List.replicate s.active none ∧
      (rem ≠ [] → s.active = numWorkers us) ∧ s.active ≤ numWorkers us := by
  induction hr with
  | init => exact ⟨[], us, rfl, rfl, fun _ => rfl, Nat.le_refl _⟩
  | step hprev hstep ih =>
      obtain ⟨pre, rem, hus, hq, hne, hle⟩ := ih
      cases hstep with
      | user u rest a =>
          simp only at hq hne hle ⊢
          cases rem with
          | nil =>
              exfalso
              simp [List.replicate_succ] at hq
          | cons r0 rem2 =>
              simp only [List.map_cons, List.cons_append, List.cons.injEq] at hq
              refine ⟨pre ++ [r0], rem2, by simp [hus, hq.1], hq.2, ?_, hle⟩
              intro hne2
              exact hne (by simp)
      | stop rest a =>
          simp only at hq hne hle ⊢
          cases rem with
          | cons r0 rem2 => simp [List.replicate_succ] at hq
          | nil =>
              simp only [List.map_nil, List.nil_append, List.replicate_succ,
                List.cons.injEq] at hq
              refine ⟨pre, [], by simp [hus], ?_, by simp, by omega⟩
              simpa using hq.2

/-- FIFO / no-requeue: every reachable queue is a suffix of the seeded
queue — entries are only ever popped from the front, never re-added. -/
theorem qreach_fifo {us : List Nat} {s : QState} (hr : QReach us s) :
    ∃ pre, initQueue us = pre ++ s.q := by
  induction hr with
  | init => exact ⟨[], rfl⟩
  | step hprev hstep ih =>
      obtain ⟨pre, hpre⟩ := ih
      cases hstep with
      | user u rest a => exact ⟨pre ++ [some u], by simpa using hpre⟩
      | stop rest a => exact ⟨pre ++ [none], by simpa using hpre⟩

/-- Drain: for a non-empty recipient list, when no worker can take another
step the queue is fully consumed (recipients and sentinels) and every worker
has exited. -/
theorem qreach_drain {us : List Nat} {s : QState} (h0 : us ≠ [])
    (hr : QReach us s) (ht : QTerminal s) : s.q = [] ∧ s.active = 0 := by
  obtain ⟨pre, rem, hus, hq, hne, hle⟩ := qreach_inv hr
  obtain ⟨q, a⟩ := s
  simp only at hq hne hle ⊢
  have hW : 1 ≤ numWorkers us := by
    have : us.length ≠ 0 := fun hc => h0 (List.length_eq_zero.mp hc)
    have h1 : 1 ≤ us.length := Nat.one_le_iff_ne_zero.mpr this
    simp only [numWorkers, BROADCAST_BATCH_SIZE]
    omega
  rcases ha : a with _ | a2
  · -- no active workers: recipients must be gone, hence the queue is empty
    subst ha
    cases rem with
    | nil => simpa using hq
    | cons r0 rem2 =>
        exfalso
        have := hne (by simp)
        omega
  · -- a worker is still active: some step is possible, contradiction
    exfalso
    subst ha
    cases rem with
    | nil =>
        simp only [List.map_nil, List.nil_append, List.replicate_succ] at hq
        exact ht ⟨List.replicate a2 none, a2⟩ (hq ▸ QStep.stop (List.replicate a2 none) a2)
    | cons r0 rem2 =>
        simp only [List.map_cons, List.cons_append] at hq
        exact ht ⟨rem2.map some ++ List.replicate (a2 + 1) none, a2 + 1⟩
          (hq ▸ QStep.user r0 (rem2.map some ++ List.replicate (a2 + 1) none) a2)

/-!  Claim theorems. -/

/-- Claim C1: for every broadcast run the shared Progress counters satisfy
`success + failed ≤ total` at every point (any processed prefix of the
queue), `success + failed = total` exactly at drain — the value that is then
persisted with status "completed" — and processing each dequeued recipient
increments exactly one of `success`/`failed` exactly once. -/
theorem C1_progress_invariant (useCopy hasPayload : Bool) (rs : List Recip) (k : Nat) :
    ((processRecipients useCopy hasPayload rs bs0).1.success
        + (processRecipients useCopy hasPayload rs bs0).1.failed = rs.length) ∧
    ((processRecipients useCopy hasPayload (rs.take k) bs0).1.success
        + (processRecipients useCopy hasPayload (rs.take k) bs0).1.failed ≤ rs.length) ∧
    (∀ (cb pb : Nat → SendRes) (uid : Nat) (s : BState),
       ((sendOneWithRetry useCopy hasPayload cb pb uid s).1.success = s.success + 1 ∧
        (sendOneWithRetry useCopy hasPayload cb pb uid s).1.failed = s.failed) ∨
       ((sendOneWithRetry useCopy hasPayload cb pb uid s).1.success = s.success ∧
        (sendOneWithRetry useCopy hasPayload cb pb uid s).1.failed = s.failed + 1)) ∧
    (rs ≠ [] → (run_broadcast useCopy hasPayload rs).persisted
        = some ((processRecipients useCopy hasPayload rs bs0).1.success,
                (processRecipients useCopy hasPayload rs bs0).1.failed, "completed")) := by
  have hz1 : bs0.success = 0 := rfl
  have hz2 : bs0.failed = 0 := rfl
  refine ⟨?_, ?_, ?_, ?_⟩
  · have h := processRecipients_sum useCopy hasPayload rs bs0
    omega
  · have h := processRecipients_sum useCopy hasPayload (rs.take k) bs0
    have hlen : (rs.take k).length ≤ rs.length := by
      simp [List.length_take]
    omega
  · intro cb pb uid s
    exact (sendOneWithRetry_oneDone useCopy hasPayload cb pb uid s).2.2
  · intro hne
    have hlen : rs.length ≠ 0 := fun hc => hne (List.length_eq_zero.mp hc)
    simp [run_broadcast, hlen]

/-- Claim C1 witness at a concrete one-recipient run. -/
theorem C1_progress_invariant_witness :
    (run_broadcast true true [⟨1, fun _ => SendRes.sent, fun _ => SendRes.sent⟩]).persisted
      = some ((processRecipients true true
                [⟨1, fun _ => SendRes.sent, fun _ => SendRes.sent⟩] bs0).1.success,
              (processRecipients true true
                [⟨1, fun _ => SendRes.sent, fun _ => SendRes.sent⟩] bs0).1.failed,
              "completed") :=
  (C1_progress_invariant true true [⟨1, fun _ => SendRes.sent, fun _ => SendRes.sent⟩] 0).2.2.2
    (by simp)

/-- Recogniser for delivery-attempt events on the reference-copy path. -/
def isCopyAttempt : Ev → Bool
  | Ev.copyAttempt => true
  | _ => false

/-- Recogniser for delivery-attempt events on the payload path. -/
def isPayloadAttempt : Ev → Bool
  | Ev.payloadAttempt => true
  | _ => false

/-- Claim C3: a recipient whose delivery always yields `Deferred(d)` (the
transport raises `RetryAfter(d)` on every attempt) is attempted exactly
`MAX_RETRY_AFTER_ATTEMPTS = 5` times with a sleep of `d` between consecutive
attempts, and is then counted as `failed`, never as `success` — on the
reference-copy path and on the payload path alike. -/
theorem C3_deferred_exhaustion (d uid : Nat) (hasP : Bool)
    (pb cb : Nat → SendRes) (s : BState) :
    (sendOneWithRetry true hasP (fun _ => SendRes.err (TgError.retryAfter d)) pb uid s
       = ({ s with failed := s.failed + 1 },
          [Ev.copyAttempt, Ev.sleep d, Ev.copyAttempt, Ev.sleep d, Ev.copyAttempt,
           Ev.sleep d, Ev.copyAttempt, Ev.sleep d, Ev.copyAttempt, Ev.sleep d])) ∧
    ((sendOneWithRetry true hasP (fun _ => SendRes.err (TgError.retryAfter d)) pb uid s).2.countP
        isCopyAttempt = MAX_RETRY_AFTER_ATTEMPTS) ∧
    (sendOneWithRetry false true cb (fun _ => SendRes.err (TgError.retryAfter d)) uid s
       = ({ s with failed := s.failed + 1 },
          [Ev.payloadAttempt, Ev.sleep d, Ev.payloadAttempt, Ev.sleep d, Ev.payloadAttempt,
           Ev.sleep d, Ev.payloadAttempt, Ev.sleep d, Ev.payloadAttempt, Ev.sleep d])) ∧
    ((sendOneWithRetry false true cb (fun _ => SendRes.err (TgError.retryAfter d)) uid s).2.countP
        isPayloadAttempt = MAX_RETRY_AFTER_ATTEMPTS) ∧
    MAX_RETRY_AFTER_ATTEMPTS = 5 := by
  refine ⟨rfl, ?_, rfl, ?_, rfl⟩ <;>
    simp [sendOneWithRetry, sendOneFrom, sendOneBody, sendViaCopy, sendViaPayload,
      outerHandler, prependEv, MAX_RETRY_AFTER_ATTEMPTS, List.countP, List.countP.go,
      isCopyAttempt, isPayloadAttempt]

/-- Claim C4: a transport rate-limit error (`RetryAfter(d)`) is always
classified as a deferral — the loop iteration ends with `retry d` after
recording a sleep of `d`, with counters untouched and no blocked-marking —
whether it arises on the reference-copy path, on the payload-fallback path
after a non-permanent copy error, or on the direct payload path; and a
deferral is followed by a retry rather than a terminal failure (a recipient
rate-limited once and then delivered counts as `success`). -/
theorem C4_rate_limit_deferred (d uid : Nat) (s : BState) (msg : String)
    (pres cres : SendRes) (hm : classifyPermanent msg = false) :
    (∀ hasP : Bool,
       sendOneBody true hasP (SendRes.err (TgError.retryAfter d)) pres uid s
         = (s, [Ev.copyAttempt, Ev.sleep d], StepRes.retry d)) ∧
    (sendOneBody true true (SendRes.err (TgError.api msg))
        (SendRes.err (TgError.retryAfter d)) uid s
       = (s, [Ev.copyAttempt, Ev.payloadAttempt, Ev.sleep d], StepRes.retry d)) ∧
    (sendOneBody false true cres (SendRes.err (TgError.retryAfter d)) uid s
       = (s, [Ev.payloadAttempt, Ev.sleep d], StepRes.retry d)) ∧
    (∀ (hasP : Bool) (pb : Nat → SendRes),
       sendOneWithRetry true hasP
           (fun i => if i = 1 then SendRes.err (TgError.retryAfter d) else SendRes.sent)
           pb uid s
         = ({ s with success := s.success + 1 },
            [Ev.copyAttempt, Ev.sleep d, Ev.copyAttempt])) := by
  refine ⟨fun hasP => rfl, ?_, rfl, fun hasP pb => ?_⟩
  · simp [sendOneBody, sendViaCopy, sendViaPayload, outerHandler, prependEv, hm]
  · simp [sendOneWithRetry, sendOneFrom, sendOneBody, sendViaCopy, afterOk,
      outerHandler, prependEv, MAX_RETRY_AFTER_ATTEMPTS]

/-- Claim C4 witness at concrete inputs. -/
theorem C4_rate_limit_deferred_witness :
    sendOneBody true true (SendRes.err (TgError.api "timeout"))
        (SendRes.err (TgError.retryAfter 3)) 9 bs0
      = (bs0, [Ev.copyAttempt, Ev.payloadAttempt, Ev.sleep 3], StepRes.retry 3) :=
  (C4_rate_limit_deferred 3 9 bs0 "timeout" SendRes.sent SendRes.sent (by decide)).2.1

/-- Claim C10: when a reference is present and the payload-fallback send
rate-limits, each retry restarts the whole delivery sequence at the
reference-copy path (the trace is five repetitions of copy attempt, payload
attempt, sleep), so the copy attempt is re-executed
`MAX_RETRY_AFTER_ATTEMPTS` times for a single recipient. -/
theorem C10_retry_restarts_at_copy (d uid : Nat) (s : BState) (msg : String)
    (hm : classifyPermanent msg = false) :
    (sendOneWithRetry true true (fun _ => SendRes.err (TgError.api msg))
        (fun _ => SendRes.err (TgError.retryAfter d)) uid s
      = ({ s with failed := s.failed + 1 },
         [Ev.copyAttempt, Ev.payloadAttempt, Ev.sleep d,
          Ev.copyAttempt, Ev.payloadAttempt, Ev.sleep d,
          Ev.copyAttempt, Ev.payloadAttempt, Ev.sleep d,
          Ev.copyAttempt, Ev.payloadAttempt, Ev.sleep d,
          Ev.copyAttempt, Ev.payloadAttempt, Ev.sleep d])) ∧
    ((sendOneWithRetry true true (fun _ => SendRes.err (TgError.api msg))
        (fun _ => SendRes.err (TgError.retryAfter d)) uid s).2.countP isCopyAttempt
      = MAX_RETRY_AFTER_ATTEMPTS) := by
  have hmain : sendOneWithRetry true true (fun _ => SendRes.err (TgError.api msg))
      (fun _ => SendRes.err (TgError.retryAfter d)) uid s
      = ({ s with failed := s.failed + 1 },
         [Ev.copyAttempt, Ev.payloadAttempt, Ev.sleep d,
          Ev.copyAttempt, Ev.payloadAttempt, Ev.sleep d,
          Ev.copyAttempt, Ev.payloadAttempt, Ev.sleep d,
          Ev.copyAttempt, Ev.payloadAttempt, Ev.sleep d,
          Ev.copyAttempt, Ev.payloadAttempt, Ev.sleep d]) := by
    simp [sendOneWithRetry, sendOneFrom, sendOneBody, sendViaCopy, sendViaPayload,
      outerHandler, prependEv, hm, MAX_RETRY_AFTER_ATTEMPTS]
  refine ⟨hmain, ?_⟩
  rw [hmain]
  simp [List.countP, List.countP.go, isCopyAttempt, MAX_RETRY_AFTER_ATTEMPTS]

/-- Claim C10 witness at concrete inputs. -/
theorem C10_retry_restarts_at_copy_witness :
    (sendOneWithRetry true true (fun _ => SendRes.err (TgError.api "oops"))
        (fun _ => SendRes.err (TgError.retryAfter 2)) 5 bs0).2.countP isCopyAttempt
      = MAX_RETRY_AFTER_ATTEMPTS :=
  (C10_retry_restarts_at_copy 2 5 bs0 "oops" (by decide)).2

/-- The spec's `DeliveryOutcome` taxonomy. -/
inductive Outcome where
  | delivered
  | unreachable
  | failedOut
  | deferred (d : Nat)
deriving DecidableEq

/-- Classification a raised transport error receives from the retry-loop
handlers of `_send_one_with_retry` (broadcast.py lines 172-197). -/
def classifyErr (e : TgError) : Outcome :=
  match e with
  | .retryAfter d => .deferred d
  | .api msg => if classifyPermanent msg then .unreachable else .failedOut
  | .other => .failedOut

/-- What each `DeliveryOutcome` means on the iteration result: `delivered`
increments `success`; `unreachable` increments `failed` and writes the
blocked flag; `failedOut` increments `failed` without touching the flag;
`deferred d` leaves the state unchanged and retries after `d`. -/
def outcomeHolds (uid : Nat) (s : BState) (r : BState × List Ev × StepRes) :
    Outcome → Prop
  | .delivered => r.1 = { s with success := s.success + 1 } ∧ r.2.2 = .done
  | .unreachable => r.1 = { s with failed := s.failed + 1 } ∧
      Ev.setBlocked uid true ∈ r.2.1 ∧ r.2.2 = .done
  | .failedOut => r.1 = { s with failed := s.failed + 1 } ∧
      (∀ b, Ev.setBlocked uid b ∉ r.2.1) ∧ r.2.2 = .done
  | .deferred d => r.1 = s ∧ r.2.2 = .retry d

/-- Claim C2 counterexample: with a reference present, a payload present,
and the reference-copy failing with an error that is neither
classified-permanent nor a rate limit (a generic exception, e.g. a network
timeout), the code makes no payload reconstruction attempt in the call and
counts the recipient failed — contradicting the claim that any
non-permanent reference error with a payload present leads to a payload
fallback attempt in the same call. -/
theorem C2_counterexample :
    (sendOneBody true true (SendRes.err TgError.other) SendRes.sent 7 bs0).2.1
        = [Ev.copyAttempt] ∧
    Ev.payloadAttempt ∉
      (sendOneBody true true (SendRes.err TgError.other) SendRes.sent 7 bs0).2.1 ∧
    (sendOneBody true true (SendRes.err TgError.other) SendRes.sent 7 bs0).1.failed = 1 ∧
    (sendOneBody true true (SendRes.err TgError.other) SendRes.sent 7 bs0).2.2
        = StepRes.done := by
  decide

/-- Claim C2 (amended): with a reference present — on classified-permanent
reference errors the outcome is `RecipientUnreachable` immediately with no
payload attempt; on a non-permanent `Forbidden`/`BadRequest` reference error
with a payload present, a payload reconstruction attempt is made in the same
call and its result becomes the call's result; with no payload present, the
reference error's classification is propagated (rate-limit errors defer the
whole call for retry, and non-API exceptions are counted failed without any
payload fallback, as the counterexample shows). -/
theorem C2_reference_fallback (msgP msgN : String) (pres : SendRes) (uid : Nat)
    (s : BState) (hP : classifyPermanent msgP = true)
    (hN : classifyPermanent msgN = false) :
    (∀ hasP : Bool,
       sendOneBody true hasP (SendRes.err (TgError.api msgP)) pres uid s
         = ({ s with failed := s.failed + 1 },
            [Ev.copyAttempt, Ev.setBlocked uid true], StepRes.done)) ∧
    (sendOneBody true true (SendRes.err (TgError.api msgN)) pres uid s
       = ((sendOneBody false true SendRes.sent pres uid s).1,
          Ev.copyAttempt :: (sendOneBody false true SendRes.sent pres uid s).2.1,
          (sendOneBody false true SendRes.sent pres uid s).2.2)) ∧
    (∀ e : TgError,
       outcomeHolds uid s (sendOneBody true false (SendRes.err e) pres uid s)
         (classifyErr e)) := by
  refine ⟨fun hasP => ?_, ?_, fun e => ?_⟩
  · simp [sendOneBody, sendViaCopy, afterOk, prependEv, hP]
  · rcases hp : sendViaPayload pres with b | e2 <;>
      simp [sendOneBody, sendViaCopy, prependEv, hN, hp]
  · rcases e with d | m | _
    · simp [sendOneBody, sendViaCopy, outerHandler, prependEv, classifyErr,
        outcomeHolds]
    · rcases hm : classifyPermanent m with _ | _
      · simp [sendOneBody, sendViaCopy, outerHandler, prependEv, classifyErr,
          outcomeHolds, hm]
      · simp [sendOneBody, sendViaCopy, afterOk, prependEv, classifyErr,
          outcomeHolds, hm]
    · simp [sendOneBody, sendViaCopy, outerHandler, prependEv, classifyErr,
        outcomeHolds]

/-- Claim C2 witness: the payload-fallback clause at concrete inputs. -/
theorem C2_reference_fallback_witness :
    sendOneBody true true (SendRes.err (TgError.api "timed out")) SendRes.sent 3 bs0
      = ((sendOneBody false true SendRes.sent SendRes.sent 3 bs0).1,
         Ev.copyAttempt :: (sendOneBody false true SendRes.sent SendRes.sent 3 bs0).2.1,
         (sendOneBody false true SendRes.sent SendRes.sent 3 bs0).2.2) :=
  (C2_reference_fallback "blocked" "timed out" SendRes.sent 3 bs0
    (by decide) (by decide)).2.1

/-- Claim C5: a recipient whose delivery produces a `RecipientUnreachable`
outcome (a `Forbidden`/`BadRequest` whose message matches the
classified-permanent substrings, case-insensitively) has its blocked flag
written `true` during the run — on the reference-copy path and on the
payload path alike — and the engine never writes `false` to any recipient's
blocked flag in any run. -/
theorem C5_blocked_flag (useCopy hasP : Bool) (rs : List Recip) (msg : String)
    (pb cb : Nat → SendRes) (uid : Nat) (s : BState)
    (hm : classifyPermanent msg = true) :
    (∀ (u2 : Nat) (b : Bool),
       Ev.setBlocked u2 b ∈ (run_broadcast useCopy hasP rs).trace → b = true) ∧
    (Ev.setBlocked uid true ∈
       (sendOneWithRetry true hasP (fun _ => SendRes.err (TgError.api msg)) pb uid s).2) ∧
    (Ev.setBlocked uid true ∈
       (sendOneWithRetry false true cb (fun _ => SendRes.err (TgError.api msg)) uid s).2) := by
  refine ⟨?_, ?_, ?_⟩
  · intro u2 b hmem
    by_cases hlen : rs.length = 0
    · simp [run_broadcast, hlen] at hmem
    · simp only [run_broadcast, hlen, if_false] at hmem
      exact processRecipients_blockedTrue useCopy hasP rs bs0 u2 b hmem
  · simp [sendOneWithRetry, sendOneFrom, sendOneBody, sendViaCopy, afterOk,
      prependEv, hm, MAX_RETRY_AFTER_ATTEMPTS]
  · simp [sendOneWithRetry, sendOneFrom, sendOneBody, sendViaPayload, afterOk,
      prependEv, hm, MAX_RETRY_AFTER_ATTEMPTS]

/-- Claim C5 witness: the copy-path blocked write at concrete inputs. -/
theorem C5_blocked_flag_witness :
    Ev.setBlocked 4 true ∈
      (sendOneWithRetry true true
        (fun _ => SendRes.err (TgError.api "Forbidden: bot was blocked by the user"))
        (fun _ => SendRes.sent) 4 bs0).2 :=
  (C5_blocked_flag true true [] "Forbidden: bot was blocked by the user"
    (fun _ => SendRes.sent) (fun _ => SendRes.sent) 4 bs0 (by decide)).2.1

/-- Claim C6: the queue is seeded with exactly `total` recipient entries in
order followed by exactly `min(poolSize, total)` stop sentinels, where the
pool size equals the worker count `min(BROADCAST_BATCH_SIZE, total)`; a
dequeue step ends a worker exactly when it takes a sentinel; nothing is ever
requeued (reachable queues are suffixes of the seeded queue); and for a
non-empty recipient set the drain wait completes only when every entry
including the sentinels has been consumed and every worker has exited. -/
theorem C6_queue_protocol (us : List Nat) :
    (initQueue us = us.map some
        ++ List.replicate (min BROADCAST_BATCH_SIZE us.length) none) ∧
    ((initQueue us).take us.length = us.map some) ∧
    ((initQueue us).count none = numWorkers us) ∧
    (∀ s t : QState, QStep s t →
       ((∃ u rest, s.q = some u :: rest ∧ t.q = rest ∧ t.active = s.active) ∨
        (∃ rest, s.q = none :: rest ∧ t.q = rest ∧ t.active + 1 = s.active))) ∧
    (∀ s : QState, QReach us s → ∃ pre, initQueue us = pre ++ s.q) ∧
    (us ≠ [] → ∀ s : QState, QReach us s → QTerminal s →
       s.q = [] ∧ s.active = 0) := by
  refine ⟨rfl, ?_, ?_, ?_, ?_, ?_⟩
  · simp [initQueue, List.take_append_of_le_length]
  · have hnot : (none : Option Nat) ∉ us.map some := by simp
    simp [initQueue, List.count_append, List.count_replicate,
      List.count_eq_zero.mpr hnot, numWorkers]
  · intro s t hstep
    cases hstep with
    | user u rest a => exact Or.inl ⟨u, rest, rfl, rfl, rfl⟩
    | stop rest a => exact Or.inr ⟨rest, rfl, rfl, rfl⟩
  · intro s hr
    exact qreach_fifo hr
  · intro h0 s hr ht
    exact qreach_drain h0 hr ht

/-- Claim C6 witness: a full two-recipient run drains. -/
theorem C6_queue_protocol_witness :
    ((⟨[], 0⟩ : QState).q = [] ∧ (⟨[], 0⟩ : QState).active = 0) :=
  (C6_queue_protocol [7, 8]).2.2.2.2.2 (by decide) ⟨[], 0⟩
    (QReach.step (QReach.step (QReach.step (QReach.step QReach.init
        (QStep.user 7 [some 8, none, none] 1))
        (QStep.user 8 [none, none] 1))
        (QStep.stop [none] 1))
        (QStep.stop [] 0))
    (by intro t hstep; cases hstep)

/-- Claim C7 (code bug evidence): whenever a `_progress_sender` iteration
decides to emit a progress notification — here at `success = 60`,
`failed = 40`, `last_progress_at = 0`, threshold `100`, `total = 1000` —
the external send is performed while the shared Progress lock is held, so
workers waiting on the lock for their increments are blocked for the
duration of the network call, contrary to the claim (and to the function's
own docstring). -/
theorem C7_reporter_sends_under_lock :
    notifyUnderLock (progressSenderIter ⟨60, 40, 0, 0⟩ 1000 100).2 = true ∧
    (progressSenderIter ⟨60, 40, 0, 0⟩ 1000 100).2
      = [RepEv.lockAcquire, RepEv.readSnapshot, RepEv.notifySend, RepEv.lockRelease] := by
  decide

/-- Claim C8: a worker finishing a dequeued recipient increments the shared
`batch_count` exactly once, and sleeps 1 time unit before pulling the next
item exactly when the incremented counter lands on a multiple of
`BROADCAST_MESSAGES_PER_SECOND` (= 25); a dequeued stop sentinel increments
nothing and incurs no pacing sleep. -/
theorem C8_throughput_pacing (useCopy hasP : Bool) (r : Recip) (s : BState) :
    ((workerProcessItem useCopy hasP (some r) s).1.batchCount = s.batchCount + 1) ∧
    ((workerProcessItem useCopy hasP (some r) s).2 = true ↔
       (s.batchCount + 1) % BROADCAST_MESSAGES_PER_SECOND = 0) ∧
    (workerProcessItem useCopy hasP none s = (s, false)) ∧
    BROADCAST_MESSAGES_PER_SECOND = 25 := by
  have hbc : (sendOneWithRetry useCopy hasP r.copyB r.payB r.uid s).1.batchCount
      = s.batchCount :=
    (sendOneWithRetry_oneDone useCopy hasP r.copyB r.payB r.uid s).1
  refine ⟨?_, ?_, rfl, rfl⟩
  · simp [workerProcessItem, hbc]
  · simp [workerProcessItem, hbc, Nat.beq_eq_true_eq]

/-- Claim C9: an empty recipient set is a no-op: `run_broadcast` returns
after logging without launching workers or the reporter, persists no
outcome, and sends no notification; and the trigger handler replies without
creating a run record or starting a broadcast. -/
theorem C9_empty_run_noop (useCopy hasP hp2 : Bool) :
    run_broadcast useCopy hasP []
      = { workersLaunched := 0, reporterLaunched := false, persisted := none,
          finalNotify := false, logged := true, trace := [] } ∧
    (startBroadcastHandler hp2 []).runCreated = false ∧
    (startBroadcastHandler hp2 []).broadcastStarted = false ∧
    (startBroadcastHandler hp2 []).replied = true := by
  refine ⟨rfl, ?_, ?_, ?_⟩ <;> cases hp2 <;> rfl
